import Mathlib

/-!
Shallow embedding of `src/session_management.js` (class `SessionManager`).

The JS class keeps mutable fields `sessionId`, `isActive`, `inactivityTimer`
plus the per-tab `sessionStorage` slot `chatbot_session_id`.  We model a
manager state as a record carrying those fields together with the current
clock value `now` (milliseconds); the pending `setTimeout` handle is modelled
as the absolute deadline at which the scheduled cleanup would fire (`none`
when no fire is pending).  Remote `fetch` calls are modelled by passing the
outcome of the request (success / non-success status / network error) as an
explicit argument, and each fallible operation additionally reports whether a
request was actually issued and, for chat, the request body it would carry.
`Math.random() * 16 | 0` draws are modelled by a stream `Nat → Fin 16`.
-/

namespace SessionManagement

/-- Outcome of the remote delete request issued by `cleanupSession`:
2xx success, a non-success HTTP status, or a network/transport error. -/
inductive FetchOutcome
  | ok
  | httpError
  | netError
deriving DecidableEq, Repr

/-- `this.INACTIVITY_TIMEOUT = 5 * 60 * 1000` (5 minutes in milliseconds). -/
def INACTIVITY_TIMEOUT : Nat := 5 * 60 * 1000

/-- The mutable fields of a `SessionManager` instance, the persisted
storage slot, and the clock. `inactivityTimer = some d` means a cleanup
fire is pending at absolute time `d`. -/
structure SMState where
  sessionId : Option String
  isActive : Bool
  inactivityTimer : Option Nat
  storage : Option String
  now : Nat
deriving DecidableEq, Repr

/-- `clearInactivityTimer()`: cancel the pending timer if any. -/
def clearInactivityTimer (s : SMState) : SMState :=
  { s with inactivityTimer := none }

/-- `startInactivityTimer()`: clear any pending timer, then schedule a
cleanup fire `INACTIVITY_TIMEOUT` from now. -/
def startInactivityTimer (s : SMState) : SMState :=
  let s1 := clearInactivityTimer s
  { s1 with inactivityTimer := some (s1.now + INACTIVITY_TIMEOUT) }

/-- `onActivityResume()`: set `isActive = true` and clear the timer. -/
def onActivityResume (s : SMState) : SMState :=
  clearInactivityTimer { s with isActive := true }

/-- `onActivityPause()`: set `isActive = false` and start the timer. -/
def onActivityPause (s : SMState) : SMState :=
  startInactivityTimer { s with isActive := false }

/-- `resetInactivityTimer()`: early-return when `!this.isActive`, else
clear and restart the timer. -/
def resetInactivityTimer (s : SMState) : SMState :=
  if !s.isActive then s
  else startInactivityTimer (clearInactivityTimer s)

/-- `cleanupSession()`: no-op without a session id; otherwise issue the
remote delete (the `Bool` records that a request was issued) and clear the
id from memory and storage only when the response is `ok`; errors are
swallowed and the state is left untouched.  The timer field is not
touched by this method. -/
def cleanupSession (s : SMState) (o : FetchOutcome) : SMState × Bool :=
  match s.sessionId with
  | none => (s, false)
  | some _ =>
    match o with
    | .ok => ({ s with sessionId := none, storage := none }, true)
    | .httpError => (s, true)
    | .netError => (s, true)

/-- Lowercase hex digit, as produced by JS `v.toString(16)` for `v < 16`. -/
def hexDigit (n : Nat) : Char :=
  if n < 10 then Char.ofNat (48 + n) else Char.ofNat (87 + n)

/-- The template string of `generateSessionId`. -/
def uuidTemplate : String := "xxxxxxxx-xxxx-4xxx-yxxx-xxxxxxxxxxxx"

/-- The `.replace(/[xy]/g, ...)` callback applied along the template:
each `x` or `y` consumes one random draw `r`; an `x` becomes `r` and a `y`
becomes `r & 0x3 | 0x8`, both rendered as a hex digit. -/
def replaceXY (rand : Nat → Fin 16) : List Char → Nat → List Char
  | [], _ => []
  | c :: rest, i =>
    if c = 'x' then hexDigit (rand i).val :: replaceXY rand rest (i + 1)
    else if c = 'y' then
      hexDigit (((rand i).val &&& 3) ||| 8) :: replaceXY rand rest (i + 1)
    else c :: replaceXY rand rest i

/-- `generateSessionId()`. -/
def generateSessionId (rand : Nat → Fin 16) : String :=
  String.mk (replaceXY rand uuidTemplate.toList 0)

/-- `getOrCreateSessionId()`: read the storage slot; if absent generate a
fresh id and persist it.  Returns the id together with the new slot value. -/
def getOrCreateSessionId (storage0 : Option String) (rand : Nat → Fin 16) :
    String × Option String :=
  match storage0 with
  | some sid => (sid, some sid)
  | none =>
    let sid := generateSessionId rand
    (sid, some sid)

/-- Constructor/`init()`: resolve the session id from storage, start
ACTIVE (`isActive = true`) with no timer pending. -/
def init (storage0 : Option String) (rand : Nat → Fin 16) : SMState :=
  let p := getOrCreateSessionId storage0 rand
  { sessionId := some p.1, isActive := true, inactivityTimer := none,
    storage := p.2, now := 0 }

/-- `notifySessionChange()`: the dispatched `sessionChanged` event carries
`detail.sessionId`, the current in-memory id. -/
def notifySessionChange (s : SMState) : Option String :=
  s.sessionId

/-- `manualCleanup()`: run the cleanup procedure, then unconditionally
generate a fresh id, persist it, and dispatch the session-change
notification.  Returns the new state and the notification payload. -/
def manualCleanup (s : SMState) (o : FetchOutcome) (rand : Nat → Fin 16) :
    SMState × Option String :=
  let s1 := (cleanupSession s o).1
  let newId := generateSessionId rand
  let s2 := { s1 with sessionId := some newId, storage := some newId }
  (s2, notifySessionChange s2)

/-- Environment events delivered to the manager: window focus/blur,
document visibility change, the five input-activity events (all handled
by `resetInactivityTimer`), the passage of time, and the pending timer
firing (which runs `cleanupSession` with the given fetch outcome). -/
inductive Ev
  | focus
  | blur
  | visHidden
  | visShown
  | input
  | tick (d : Nat)
  | fire (o : FetchOutcome)
deriving DecidableEq, Repr

/-- One event-delivery step of the manager.  A `fire` only has an effect
when a timer is pending and its deadline has been reached; firing consumes
the pending timer and runs the scheduled `cleanupSession`. -/
def step (s : SMState) : Ev → SMState
  | .focus => onActivityResume s
  | .blur => onActivityPause s
  | .visHidden => onActivityPause s
  | .visShown => onActivityResume s
  | .input => resetInactivityTimer s
  | .tick d => { s with now := s.now + d }
  | .fire o =>
    match s.inactivityTimer with
    | none => s
    | some d =>
      if d ≤ s.now then (cleanupSession { s with inactivityTimer := none } o).1
      else s

/-- Deliver a finite sequence of events. -/
def run (s : SMState) (evs : List Ev) : SMState :=
  evs.foldl step s

/-- Whether an event is one of the focus/blur/visibility events. -/
def isFocusVisEv : Ev → Bool
  | .focus => true
  | .blur => true
  | .visHidden => true
  | .visShown => true
  | _ => false

/-- Body of the POST to `/chat/`: `{ query: message, session_id }`. -/
structure ChatRequest where
  query : String
  session_id : String
deriving DecidableEq, Repr

/-- Outcome of the remote chat request: parsed success body, a non-success
status (carrying `statusText`), or a transport error. -/
inductive ChatOutcome
  | ok (resp : String)
  | httpError (statusText : String)
  | netError (err : String)
deriving DecidableEq, Repr

/-- `sendMessage(message)`: throw immediately when no session id is held
(no request issued); otherwise issue the chat request and return the
parsed response on `ok`, a `Chat failed: ...` error on non-success status,
and rethrow the transport error. The second component is the request
issued, if any. -/
def sendMessage (s : SMState) (message : String) (o : ChatOutcome) :
    Except String String × Option ChatRequest :=
  match s.sessionId with
  | none => (.error ("No active session. Please upload documents first."), none)
  | some sid =>
    match o with
    | .ok resp => (.ok resp, some ⟨message, sid⟩)
    | .httpError st => (.error ("Chat failed: " ++ st), some ⟨message, sid⟩)
    | .netError e => (.error e, some ⟨message, sid⟩)

/-- Parsed JSON body of a successful `/upload/` response; it includes the
server-assigned `session_id`. -/
structure UploadResult where
  session_id : String
  body : String
deriving DecidableEq, Repr

/-- Outcome of the remote upload request. -/
inductive UploadOutcome
  | ok (result : UploadResult)
  | httpError (statusText : String)
  | netError (err : String)
deriving DecidableEq, Repr

/-- `uploadFiles(files)`: on success overwrite the in-memory id with the
server-returned `session_id`, persist it, and return the parsed result;
on non-success status throw `Upload failed: ...`; rethrow transport
errors. -/
def uploadFiles (s : SMState) (files : List String) (o : UploadOutcome) :
    SMState × Except String UploadResult :=
  match o with
  | .ok result =>
    ({ s with sessionId := some result.session_id,
              storage := some result.session_id }, .ok result)
  | .httpError st => (s, .error ("Upload failed: " ++ st))
  | .netError e => (s, .error e)

/-- Whether a character is a lowercase hexadecimal digit. -/
def isLowerHexDigit (c : Char) : Bool :=
  (('0' ≤ c) && (c ≤ '9')) || (('a' ≤ c) && (c ≤ 'f'))

/-- Checker for the canonical shape `xxxxxxxx-xxxx-4xxx-yxxx-xxxxxxxxxxxx`:
36 characters, hyphens at positions 8, 13, 18, 23, version nibble `'4'` at
position 14, variant nibble in `{8,9,a,b}` at position 19, every other
position a lowercase hex digit. -/
def uuidShapeOk (s : String) : Bool :=
  let l := s.toList
  l.length == 36 &&
  (List.range 36).all fun i =>
    let c := l.getD i ' '
    if i == 8 || i == 13 || i == 18 || i == 23 then c == '-'
    else if i == 14 then c == '4'
    else if i == 19 then (c == '8') || (c == '9') || (c == 'a') || (c == 'b')
    else isLowerHexDigit c

/-! ### Basic lemmas about event delivery -/

/-- Delivering no events leaves the state unchanged. -/
theorem run_nil (s : SMState) : run s [] = s := rfl

/-- Delivering `e :: evs` first steps on `e`, then delivers `evs`. -/
theorem run_cons (s : SMState) (e : Ev) (evs : List Ev) :
    run s (e :: evs) = run (step s e) evs := rfl

/-- Delivering `evs ++ [e]` delivers `evs`, then steps on `e`. -/
theorem run_concat (s : SMState) (evs : List Ev) (e : Ev) :
    run s (evs ++ [e]) = step (run s evs) e := by
  simp [run, List.foldl_append]

/-- Along focus/blur/visibility events, the relation `timer pending iff
paused` is preserved from any state satisfying it. -/
theorem fbv_timer_iff_paused_aux : ∀ (evs : List Ev) (s : SMState),
    (∀ e ∈ evs, isFocusVisEv e = true) →
    s.inactivityTimer.isSome = !s.isActive →
    (run s evs).inactivityTimer.isSome = !(run s evs).isActive := by
  intro evs
  induction evs with
  | nil => intro s _ hs; simpa [run] using hs
  | cons e rest ih =>
    intro s h hs
    have he : isFocusVisEv e = true := h e (by simp)
    have hrest : ∀ x ∈ rest, isFocusVisEv x = true := fun x hx => h x (by simp [hx])
    rw [run_cons]
    apply ih (step s e) hrest
    cases e <;> simp_all [step, onActivityResume, onActivityPause,
      startInactivityTimer, clearInactivityTimer, isFocusVisEv]

/-- Every hex digit rendered from a 4-bit draw is a lowercase hex digit. -/
theorem hexDigit_lowerHex : ∀ n : Fin 16, isLowerHexDigit (hexDigit n.val) = true := by
  decide

/-- The variant nibble `r & 0x3 | 0x8` always renders as one of
`8`, `9`, `a`, `b`. -/
theorem hexDigit_variant : ∀ n : Fin 16,
    ((hexDigit ((n.val &&& 3) ||| 8) == '8') || (hexDigit ((n.val &&& 3) ||| 8) == '9') ||
     (hexDigit ((n.val &&& 3) ||| 8) == 'a') || (hexDigit ((n.val &&& 3) ||| 8) == 'b')) =
      true := by
  decide

/-! ### Claim theorems -/

/-- C1 counterexample: the claimed invariant (timer armed iff PAUSED, and a
timer can only fire while PAUSED) is false at a reachable state.  From the
initial state, a single input-activity event leaves the state ACTIVE with
the inactivity timer armed; letting that timer fire runs cleanup while
ACTIVE, clearing the session id. -/
theorem timer_armed_while_active_cex :
    ((run (init (some ("A")) (fun _ => (0 : Fin 16))) [Ev.input]).isActive = true ∧
     (run (init (some ("A")) (fun _ => (0 : Fin 16))) [Ev.input]).inactivityTimer =
       some INACTIVITY_TIMEOUT) ∧
    ((run (init (some ("A")) (fun _ => (0 : Fin 16)))
        [Ev.input, Ev.tick INACTIVITY_TIMEOUT, Ev.fire FetchOutcome.ok]).isActive = true ∧
     (run (init (some ("A")) (fun _ => (0 : Fin 16)))
        [Ev.input, Ev.tick INACTIVITY_TIMEOUT, Ev.fire FetchOutcome.ok]).sessionId =
       none) := by
  decide

/-- C1 (amended): restricted to sequences of focus/blur/visibility events,
the inactivity timer is armed iff the activity state is PAUSED.  The full
claim fails because an input-activity event while ACTIVE arms the timer. -/
theorem timer_iff_paused_for_focus_visibility_events :
    ∀ (st0 : Option String) (r : Nat → Fin 16) (evs : List Ev),
    (∀ e ∈ evs, isFocusVisEv e = true) →
    ((run (init st0 r) evs).inactivityTimer.isSome = true ↔
      (run (init st0 r) evs).isActive = false) := by
  intro st0 r evs h
  have key := fbv_timer_iff_paused_aux evs (init st0 r) h rfl
  rw [key]
  cases (run (init st0 r) evs).isActive <;> simp

/-- C1 (amended) witness at the concrete event sequence `[blur]`. -/
theorem timer_iff_paused_for_focus_visibility_events_witness :
    ((run (init (some ("A")) (fun _ => (0 : Fin 16))) [Ev.blur]).inactivityTimer.isSome =
        true ↔
      (run (init (some ("A")) (fun _ => (0 : Fin 16))) [Ev.blur]).isActive = false) :=
  timer_iff_paused_for_focus_visibility_events (some ("A")) (fun _ => (0 : Fin 16))
    [Ev.blur] (by decide)

/-- C2 counterexample: `cleanupSession` does not cancel a pending timer.
Reachable state: after `blur` the state is PAUSED with a timer pending at
`INACTIVITY_TIMEOUT`.  A successful `cleanupSession` call leaves that timer
pending; likewise after `manualCleanup` the fresh session still has the
stale timer pending, and letting it fire wipes the fresh session. -/
theorem cleanup_leaves_timer_pending_cex :
    ((cleanupSession (run (init (some ("A")) (fun _ => (0 : Fin 16))) [Ev.blur])
        FetchOutcome.ok).1.inactivityTimer = some INACTIVITY_TIMEOUT) ∧
    ((manualCleanup (run (init (some ("A")) (fun _ => (0 : Fin 16))) [Ev.blur])
        FetchOutcome.ok (fun _ => (0 : Fin 16))).1.sessionId.isSome = true ∧
     (manualCleanup (run (init (some ("A")) (fun _ => (0 : Fin 16))) [Ev.blur])
        FetchOutcome.ok (fun _ => (0 : Fin 16))).1.inactivityTimer =
       some INACTIVITY_TIMEOUT ∧
     (run (manualCleanup (run (init (some ("A")) (fun _ => (0 : Fin 16))) [Ev.blur])
          FetchOutcome.ok (fun _ => (0 : Fin 16))).1
        [Ev.tick INACTIVITY_TIMEOUT, Ev.fire FetchOutcome.ok]).sessionId = none) := by
  decide

/-- C2 (amended): `cleanupSession` never touches the inactivity timer — the
timer field is unchanged for every state and fetch outcome, so a pending
timer is cancelled only by a transition to ACTIVE or by re-arming. -/
theorem cleanupSession_preserves_inactivityTimer :
    ∀ (s : SMState) (o : FetchOutcome),
    (cleanupSession s o).1.inactivityTimer = s.inactivityTimer := by
  intro s o
  cases hs : s.sessionId <;> cases o <;> simp [cleanupSession, hs]

/-- C3: cleanup is atomic on error — on a non-success status or a network
error both the in-memory id and the storage slot are unchanged; a
successful deletion clears both. -/
theorem cleanupSession_atomic_on_error : ∀ (s : SMState) (o : FetchOutcome),
    (o ≠ FetchOutcome.ok →
      (cleanupSession s o).1.sessionId = s.sessionId ∧
      (cleanupSession s o).1.storage = s.storage) ∧
    (s.sessionId.isSome = true →
      (cleanupSession s FetchOutcome.ok).1.sessionId = none ∧
      (cleanupSession s FetchOutcome.ok).1.storage = none) := by
  intro s o
  cases hs : s.sessionId <;> cases o <;> simp_all [cleanupSession]

/-- C3 witness at a concrete held session, for a failing and a successful
delete. -/
theorem cleanupSession_atomic_on_error_witness :
    ((cleanupSession ⟨some ("S1"), false, some 7, some ("S1"), 0⟩
        FetchOutcome.httpError).1.sessionId =
      (⟨some ("S1"), false, some 7, some ("S1"), 0⟩ : SMState).sessionId ∧
     (cleanupSession ⟨some ("S1"), false, some 7, some ("S1"), 0⟩
        FetchOutcome.httpError).1.storage =
      (⟨some ("S1"), false, some 7, some ("S1"), 0⟩ : SMState).storage) ∧
    ((cleanupSession ⟨some ("S1"), false, some 7, some ("S1"), 0⟩
        FetchOutcome.ok).1.sessionId = none ∧
     (cleanupSession ⟨some ("S1"), false, some 7, some ("S1"), 0⟩
        FetchOutcome.ok).1.storage = none) :=
  ⟨(cleanupSession_atomic_on_error ⟨some ("S1"), false, some 7, some ("S1"), 0⟩
      FetchOutcome.httpError).1 (by decide),
   (cleanupSession_atomic_on_error ⟨some ("S1"), false, some 7, some ("S1"), 0⟩
      FetchOutcome.httpError).2 rfl⟩

/-- C4: `manualCleanup` runs the cleanup procedure and then, for every
fetch outcome, sets and persists the freshly generated id and dispatches a
session-change notification carrying it. -/
theorem manualCleanup_unconditionally_renews :
    ∀ (s : SMState) (o : FetchOutcome) (r : Nat → Fin 16),
    manualCleanup s o r =
      ({ (cleanupSession s o).1 with
          sessionId := some (generateSessionId r)
          storage := some (generateSessionId r) },
        some (generateSessionId r)) := by
  intro s o r
  rfl

/-- C5: after any sequence of focus/blur/visibility events the state is
ACTIVE iff the most recent such event was focus-gain or visibility-shown,
or no event occurred at all. -/
theorem activity_state_tracks_last_focus_visibility_event :
    ∀ (st0 : Option String) (r : Nat → Fin 16) (evs : List Ev),
    (∀ e ∈ evs, isFocusVisEv e = true) →
    ((run (init st0 r) evs).isActive = true ↔
      (evs.getLast? = none ∨ evs.getLast? = some Ev.focus ∨
        evs.getLast? = some Ev.visShown)) := by
  intro st0 r evs h
  rcases List.eq_nil_or_concat' evs with rfl | ⟨L, e, rfl⟩
  · simp [run, init]
  · have he : isFocusVisEv e = true := h e (by simp)
    rw [run_concat, List.getLast?_concat]
    cases e <;> simp_all [step, onActivityResume, onActivityPause,
      startInactivityTimer, clearInactivityTimer, isFocusVisEv]

/-- C5 witness at the concrete event sequence `[blur, focus]`. -/
theorem activity_state_tracks_last_focus_visibility_event_witness :
    ((run (init (some ("A")) (fun _ => (0 : Fin 16))) [Ev.blur, Ev.focus]).isActive =
        true ↔
      (([Ev.blur, Ev.focus] : List Ev).getLast? = none ∨
        ([Ev.blur, Ev.focus] : List Ev).getLast? = some Ev.focus ∨
        ([Ev.blur, Ev.focus] : List Ev).getLast? = some Ev.visShown)) :=
  activity_state_tracks_last_focus_visibility_event (some ("A"))
    (fun _ => (0 : Fin 16)) [Ev.blur, Ev.focus] (by decide)

/-- C6: an input-activity event while ACTIVE resets the pending delay to
the full timeout and changes nothing else; while PAUSED it changes
nothing at all. -/
theorem input_activity_resets_timer_only_when_active : ∀ s : SMState,
    (s.isActive = true →
      step s Ev.input =
        { s with inactivityTimer := some (s.now + INACTIVITY_TIMEOUT) }) ∧
    (s.isActive = false → step s Ev.input = s) := by
  intro s
  constructor <;> intro h <;>
    simp [step, resetInactivityTimer, startInactivityTimer, clearInactivityTimer, h]

/-- C6 witness at a concrete ACTIVE state and a concrete PAUSED state. -/
theorem input_activity_resets_timer_only_when_active_witness :
    step ⟨some ("A"), true, none, some ("A"), 0⟩ Ev.input =
      { (⟨some ("A"), true, none, some ("A"), 0⟩ : SMState) with
          inactivityTimer :=
            some ((⟨some ("A"), true, none, some ("A"), 0⟩ : SMState).now +
              INACTIVITY_TIMEOUT) } ∧
    step ⟨some ("B"), false, some 5, some ("B"), 7⟩ Ev.input =
      ⟨some ("B"), false, some 5, some ("B"), 7⟩ :=
  ⟨(input_activity_resets_timer_only_when_active
      ⟨some ("A"), true, none, some ("A"), 0⟩).1 rfl,
   (input_activity_resets_timer_only_when_active
      ⟨some ("B"), false, some 5, some ("B"), 7⟩).2 rfl⟩

/-- C7: cleanup is idempotent — with no id held it is a no-op issuing no
request; a call with a held id issues the one effective delete, and a
second call after a successful first is a no-op issuing no request. -/
theorem cleanupSession_idempotent : ∀ (s : SMState) (o : FetchOutcome),
    (s.sessionId = none → cleanupSession s o = (s, false)) ∧
    (s.sessionId.isSome = true → (cleanupSession s FetchOutcome.ok).2 = true) ∧
    (cleanupSession (cleanupSession s FetchOutcome.ok).1 o =
      ((cleanupSession s FetchOutcome.ok).1, false)) := by
  intro s o
  cases hs : s.sessionId <;> cases o <;> simp_all [cleanupSession]

/-- C7 witness: no-op without an id, and a concrete double cleanup. -/
theorem cleanupSession_idempotent_witness :
    (cleanupSession ⟨none, true, none, none, 0⟩ FetchOutcome.netError =
      (⟨none, true, none, none, 0⟩, false)) ∧
    ((cleanupSession ⟨some ("S1"), false, some 7, some ("S1"), 0⟩
        FetchOutcome.ok).2 = true) ∧
    (cleanupSession
        (cleanupSession ⟨some ("S1"), false, some 7, some ("S1"), 0⟩
          FetchOutcome.ok).1 FetchOutcome.netError =
      ((cleanupSession ⟨some ("S1"), false, some 7, some ("S1"), 0⟩
          FetchOutcome.ok).1, false)) :=
  ⟨(cleanupSession_idempotent ⟨none, true, none, none, 0⟩ FetchOutcome.netError).1 rfl,
   (cleanupSession_idempotent ⟨some ("S1"), false, some 7, some ("S1"), 0⟩
      FetchOutcome.netError).2.1 rfl,
   (cleanupSession_idempotent ⟨some ("S1"), false, some 7, some ("S1"), 0⟩
      FetchOutcome.netError).2.2⟩

/-- C8: `sendMessage` with no session id fails immediately with the
precondition error and issues no request; with a held id it issues the
request carrying the message and the id, returns the parsed response on
success, a descriptive error on a non-success status, and the transport
error on a network failure. -/
theorem sendMessage_requires_session : ∀ (s : SMState) (msg : String) (o : ChatOutcome),
    (s.sessionId = none →
      sendMessage s msg o =
        (Except.error ("No active session. Please upload documents first."), none)) ∧
    (∀ sid, s.sessionId = some sid →
      (sendMessage s msg o).2 = some ⟨msg, sid⟩ ∧
      (∀ resp, o = ChatOutcome.ok resp → (sendMessage s msg o).1 = Except.ok resp) ∧
      (∀ st, o = ChatOutcome.httpError st →
        (sendMessage s msg o).1 = Except.error ("Chat failed: " ++ st)) ∧
      (∀ e, o = ChatOutcome.netError e → (sendMessage s msg o).1 = Except.error e)) := by
  intro s msg o
  cases hs : s.sessionId <;> cases o <;> simp_all [sendMessage]

/-- C8 witness: a null-id call, and a held-id call on success and on a
non-success status. -/
theorem sendMessage_requires_session_witness :
    (sendMessage ⟨none, true, none, none, 0⟩ ("hi") (ChatOutcome.ok ("resp")) =
      (Except.error ("No active session. Please upload documents first."), none)) ∧
    ((sendMessage ⟨some ("S1"), true, none, some ("S1"), 0⟩ ("hi")
        (ChatOutcome.ok ("resp"))).2 = some ⟨("hi"), ("S1")⟩) ∧
    ((sendMessage ⟨some ("S1"), true, none, some ("S1"), 0⟩ ("hi")
        (ChatOutcome.ok ("resp"))).1 = Except.ok ("resp")) ∧
    ((sendMessage ⟨some ("S1"), true, none, some ("S1"), 0⟩ ("hi")
        (ChatOutcome.httpError ("Bad Request"))).1 =
      Except.error ("Chat failed: " ++ "Bad Request")) :=
  ⟨(sendMessage_requires_session ⟨none, true, none, none, 0⟩ ("hi")
      (ChatOutcome.ok ("resp"))).1 rfl,
   ((sendMessage_requires_session ⟨some ("S1"), true, none, some ("S1"), 0⟩ ("hi")
      (ChatOutcome.ok ("resp"))).2 ("S1") rfl).1,
   ((sendMessage_requires_session ⟨some ("S1"), true, none, some ("S1"), 0⟩ ("hi")
      (ChatOutcome.ok ("resp"))).2 ("S1") rfl).2.1 ("resp") rfl,
   ((sendMessage_requires_session ⟨some ("S1"), true, none, some ("S1"), 0⟩ ("hi")
      (ChatOutcome.httpError ("Bad Request"))).2 ("S1") rfl).2.2.1 ("Bad Request") rfl⟩

/-- C9: a successful upload overwrites the in-memory id with the
server-assigned `session_id`, persists it, and every subsequent chat
request carries the server-assigned id. -/
theorem uploadFiles_overwrites_session_id :
    ∀ (s : SMState) (files : List String) (result : UploadResult)
      (msg : String) (o : ChatOutcome),
    (uploadFiles s files (UploadOutcome.ok result)).1.sessionId =
      some result.session_id ∧
    (uploadFiles s files (UploadOutcome.ok result)).1.storage =
      some result.session_id ∧
    (sendMessage (uploadFiles s files (UploadOutcome.ok result)).1 msg o).2 =
      some ⟨msg, result.session_id⟩ := by
  intro s files result msg o
  cases o <;> simp [uploadFiles, sendMessage]

/-- C10: every id produced by `generateSessionId`, for every randomness
stream, has the canonical shape: 36 characters, hyphens at positions
8/13/18/23, version nibble `4`, variant nibble in `{8,9,a,b}`, lowercase
hex everywhere else. -/
theorem generateSessionId_canonical_shape (r : Nat → Fin 16) :
    uuidShapeOk (generateSessionId r) = true := by
  simp [uuidShapeOk, generateSessionId, uuidTemplate, replaceXY, List.range_succ,
    hexDigit_lowerHex, hexDigit_variant]

end SessionManagement
